import Mathlib

/-!
Shallow embedding of the invoice field-reconciliation and flattening logic of
the `extraccion-facturas-app` repository (files `agents_system.py`,
`agents_system_simple.py`, `app_streamlit.py`).

Python values that can appear in a parsed JSON document (plus `None`) are
modelled by `PyVal`; Python exceptions raised while navigating such a value
(`AttributeError` on `.get` of a non-dict, `TypeError` on iterating a number,
`.lower()` on a non-string) are modelled by `Except Unit`; the `try/except`
wrapper of `_save_to_excel` is the final `match` that converts an error into
the boolean failure result.  Monetary values are modelled by `Rat`: the code
never performs arithmetic on them, it only copies them and tests Python
truthiness, so no floating-point behaviour is involved.
-/

/-- A Python/JSON value as produced by `json.loads` (plus `None`). -/
inductive PyVal where
  | none
  | bool (b : Bool)
  | num (q : Rat)
  | str (s : String)
  | list (xs : List PyVal)
  | dict (kvs : List (String × PyVal))
deriving Repr

/-- Association-list view of a Python dict (`json.loads` yields unique keys). -/
abbrev KVs := List (String × PyVal)

/-- Dictionary lookup, `d[k]` as an `Option`. -/
def lookupKV : KVs → String → Option PyVal
  | [], _ => Option.none
  | (k', v) :: rest, k => if k' == k then some v else lookupKV rest k

/-- Python truthiness of a value (`bool(v)`). -/
def pyTruthy : PyVal → Bool
  | .none => false
  | .bool b => b
  | .num q => q != 0
  | .str s => !s.isEmpty
  | .list xs => !xs.isEmpty
  | .dict kvs => !kvs.isEmpty

/-- Python `a or b` on already-computed values. -/
def pyOr (a b : PyVal) : PyVal := if pyTruthy a then a else b

/-- `v.get(k, dflt)`: raises `AttributeError` when `v` is not a dict. -/
def getAttr (v : PyVal) (k : String) (dflt : PyVal) : Except Unit PyVal :=
  match v with
  | .dict kvs => .ok ((lookupKV kvs k).getD dflt)
  | _ => .error ()

/-- View a value as a dict, raising (like the first `.get` call on it) otherwise. -/
def asDict (v : PyVal) : Except Unit KVs :=
  match v with
  | .dict kvs => .ok kvs
  | _ => .error ()

/-- Python `for x in v`: lists yield elements, dicts their keys, strings their
characters (as one-character strings); other values raise `TypeError`. -/
def pyIterate (v : PyVal) : Except Unit (List PyVal) :=
  match v with
  | .list xs => .ok xs
  | .dict kvs => .ok (kvs.map (fun kv => .str kv.1))
  | .str s => .ok (s.toList.map (fun c => .str (String.singleton c)))
  | _ => .error ()

/-- Lower-casing of one character, covering ASCII plus the accented Spanish
capitals that occur in the keyword sets (Python `str.lower`). -/
def lowerChar (c : Char) : Char :=
  if c = 'Á' then 'á' else if c = 'É' then 'é' else if c = 'Í' then 'í'
  else if c = 'Ó' then 'ó' else if c = 'Ú' then 'ú' else if c = 'Ñ' then 'ñ'
  else if c = 'Ü' then 'ü' else c.toLower

/-- Python `s.lower()` on a string. -/
def pyLowerStr (s : String) : String := String.mk (s.toList.map lowerChar)

/-- `v.lower()`: raises when `v` is not a string. -/
def pyLower (v : PyVal) : Except Unit String :=
  match v with
  | .str s => .ok (pyLowerStr s)
  | _ => .error ()

/-- Does the character list start with the given pattern? -/
def startsWithL : List Char → List Char → Bool
  | _, [] => true
  | [], _ :: _ => false
  | c :: cs, d :: ds => c == d && startsWithL cs ds

/-- Substring test on character lists. -/
def containsL : List Char → List Char → Bool
  | [], needle => needle.isEmpty
  | hay@(_ :: rest), needle => startsWithL hay needle || containsL rest needle

/-- Python `needle in hay` for strings. -/
def strContainsSub (hay needle : String) : Bool := containsL hay.toList needle.toList

/-- Comma-space join, as Python uses between list/dict elements in `str()`. -/
def joinComma (xs : List String) : String := String.intercalate ", " xs

/-- Left-pad a digit string with zeros to the given length. -/
def padLeftZeros (s : String) (n : Nat) : String :=
  String.mk (List.replicate (n - s.length) '0') ++ s

/-- Smallest exponent `k ≤ 30` such that `d` divides `10^k`, if any. -/
def decExp (d : Nat) : Option Nat := (List.range 31).find? (fun k => decide (d ∣ 10 ^ k))

/-- Python `str` of a JSON number: integers print without a decimal point,
terminating decimals print in fixed-point form.  (Only the integer cases are
relied upon by any theorem below; the code never does arithmetic on these.) -/
def numRepr (q : Rat) : String :=
  if q.den = 1 then toString q.num
  else
    match decExp q.den with
    | some k =>
        let scaled : Int := q.num * (10 : Int) ^ k / (q.den : Int)
        let digits := padLeftZeros (toString scaled.natAbs) (k + 1)
        let ip := String.mk (digits.toList.take (digits.length - k))
        let fp := String.mk (digits.toList.drop (digits.length - k))
        (if q.num < 0 then "-" else "") ++ ip ++ "." ++ fp
    | Option.none => toString q.num ++ "/" ++ toString q.den

/-- Python `repr` of a value (what `str` applies to elements inside containers). -/
def pyReprQ : PyVal → String
  | .none => "None"
  | .bool b => if b then "True" else "False"
  | .num q => numRepr q
  | .str s => "\x27" ++ s ++ "\x27"
  | .list xs => "[" ++ joinComma (xs.attach.map (fun x => pyReprQ x.1)) ++ "]"
  | .dict kvs => "\x7b" ++ joinComma (kvs.attach.map
      (fun kv => "\x27" ++ kv.1.1 ++ "\x27: " ++ pyReprQ kv.1.2)) ++ "\x7d"
decreasing_by
  · have := List.sizeOf_lt_of_mem x.2
    simp [PyVal.list.sizeOf_spec]
    try omega
  · have h1 := List.sizeOf_lt_of_mem kv.2
    have h2 : sizeOf kv.1.2 < sizeOf kv.1 := by
      cases kv.1 with | mk a b => simp
    simp [PyVal.dict.sizeOf_spec]
    try omega

/-- Python `str(v)`: a top-level string prints without quotes. -/
def pyStr : PyVal → String
  | .str s => s
  | v => pyReprQ v

/-- The eight line-item categories of the `conceptos_facturacion` classification
loop in `TableExtractionAgent._save_to_excel` (`agents_system.py`). -/
inductive Cat where
  | fijo | energia | combustible | transmision | generacion
  | interesMora | subsidio | compensacion
deriving DecidableEq, Repr

/-- The keyword test of each branch of the classification chain, on the
lower-cased concept label. -/
def catMatches (c : Cat) (n : String) : Bool :=
  match c with
  | .fijo => strContainsSub n "cargo fijo" || strContainsSub n "fijo"
  | .energia => strContainsSub n "energía" || strContainsSub n "energia"
  | .combustible => strContainsSub n "combustible"
  | .transmision => strContainsSub n "transmisión" || strContainsSub n "transmision"
  | .generacion => strContainsSub n "generación" || strContainsSub n "generacion"
  | .interesMora => strContainsSub n "interés" || strContainsSub n "interes" || strContainsSub n "mora"
  | .subsidio => strContainsSub n "subsidio" || strContainsSub n "ley 15"
  | .compensacion => strContainsSub n "compensación" || strContainsSub n "compensacion" || strContainsSub n "incumplimiento"

/-- The `if/elif` chain of `agents_system.py` lines 411-426: the first branch
whose keywords match decides the category; no branch means no category. -/
def classOf (n : String) : Option Cat :=
  if catMatches .fijo n then some .fijo
  else if catMatches .energia n then some .energia
  else if catMatches .combustible n then some .combustible
  else if catMatches .transmision n then some .transmision
  else if catMatches .generacion n then some .generacion
  else if catMatches .interesMora n then some .interesMora
  else if catMatches .subsidio n then some .subsidio
  else if catMatches .compensacion n then some .compensacion
  else Option.none

/-- The branch order of the classification chain. -/
def catOrder : List Cat :=
  [.fijo, .energia, .combustible, .transmision, .generacion,
   .interesMora, .subsidio, .compensacion]

/-- The eight local accumulator variables of the classification loop, all
initialised to `0` (`agents_system.py` lines 398-405). -/
structure CState where
  cargoFijo : PyVal := .num 0
  energia : PyVal := .num 0
  varCombustible : PyVal := .num 0
  varTransmision : PyVal := .num 0
  varGeneracion : PyVal := .num 0
  interesMora : PyVal := .num 0
  subsidio : PyVal := .num 0
  compensacion : PyVal := .num 0
deriving Repr

/-- The initial classification state (all categories `0`). -/
def initC : CState := {}

/-- The accumulator belonging to a category. -/
def CState.get (st : CState) : Cat → PyVal
  | .fijo => st.cargoFijo
  | .energia => st.energia
  | .combustible => st.varCombustible
  | .transmision => st.varTransmision
  | .generacion => st.varGeneracion
  | .interesMora => st.interesMora
  | .subsidio => st.subsidio
  | .compensacion => st.compensacion

/-- Overwrite the accumulator of the classified category, if any. -/
def applyCat (st : CState) : Option Cat → PyVal → CState
  | Option.none, _ => st
  | some .fijo, v => { st with cargoFijo := v }
  | some .energia, v => { st with energia := v }
  | some .combustible, v => { st with varCombustible := v }
  | some .transmision, v => { st with varTransmision := v }
  | some .generacion, v => { st with varGeneracion := v }
  | some .interesMora, v => { st with interesMora := v }
  | some .subsidio, v => { st with subsidio := v }
  | some .compensacion, v => { st with compensacion := v }

/-- Per-entry work of the loop body: `concepto.get('concepto', '').lower()` and
`concepto.get('importe', 0)`, then the keyword chain. -/
def entryCat (e : PyVal) : Except Unit (Option Cat × PyVal) := do
  let nv ← getAttr e "concepto" (.str "")
  let n ← pyLower nv
  let imp ← getAttr e "importe" (.num 0)
  pure (classOf n, imp)

/-- One iteration of the classification loop. -/
def classifyStep (st : CState) (e : PyVal) : Except Unit CState :=
  (entryCat e).map (fun p => applyCat st p.1 p.2)

/-- The whole classification loop over `conceptos_facturacion`. -/
def classifyList (cs : List PyVal) : Except Unit CState :=
  cs.foldlM classifyStep initC

/-- Section lookup with `{}` default: `extracted_data.get(key, {})`. -/
def sect (kvs : KVs) (k : String) : PyVal := (lookupKV kvs k).getD (.dict [])

/-- The ten top-level reads of `_save_to_excel` (`agents_system.py` 385-394). -/
structure ExtractedSections where
  rt : PyVal
  df : PyVal
  tot : PyVal
  cli : PyVal
  per : PyVal
  cargos : PyVal
  dem : PyVal
  fr : PyVal
  lect : PyVal
  conceptos : PyVal

/-- Read the sections from the top-level dict (each `.get` with its default). -/
def readSections (kvs : KVs) : ExtractedSections :=
  { rt := sect kvs "resumen_tabular"
    df := sect kvs "datos_factura"
    tot := sect kvs "totales"
    cli := sect kvs "informacion_cliente"
    per := sect kvs "periodo_lectura"
    cargos := sect kvs "cargos_energia"
    dem := sect kvs "demandas_detalladas"
    fr := sect kvs "energia_por_franjas"
    lect := sect kvs "lecturas_medidor"
    conceptos := (lookupKV kvs "conceptos_facturacion").getD (.list []) }

/-- `kvs.get(k)` (default `None`). -/
def gN (kvs : KVs) (k : String) : PyVal := (lookupKV kvs k).getD .none

/-- `kvs.get(k, '')`. -/
def gS (kvs : KVs) (k : String) : PyVal := (lookupKV kvs k).getD (.str "")

/-- `kvs.get(k, 0)`. -/
def g0 (kvs : KVs) (k : String) : PyVal := (lookupKV kvs k).getD (.num 0)

/-- One spreadsheet row: the ordered column-label/value pairs. -/
abbrev FlatRecord := List (String × PyVal)

/-- The `consolidado_data` dict literal of `agents_system.py` lines 429-491,
given the section dicts (already known to be dicts), the classification loop
result, and the resolved nested meter-reading dicts. -/
def mkRecord (rt : KVs) (st : CState) (df tot cli per cargos dem fr od ea er dm : KVs) :
    FlatRecord :=
  [ ("Número de factura", pyOr (gN rt "numero_factura") (gS df "numero_factura")),
    ("NIS", pyOr (gN rt "nis") (gS cli "nis")),
    ("Mes de la factura", pyOr (gN rt "mes_factura") (gS df "mes_factura")),
    ("Tarifa", pyOr (gN rt "tarifa") (gS per "tarifa")),
    ("Periodo de lectura desde", pyOr (gN rt "periodo_lectura_desde") (gS per "fecha_desde")),
    ("Periodo de lectura hasta", pyOr (gN rt "periodo_lectura_hasta") (gS per "fecha_hasta")),
    ("Tipo de lectura", pyOr (gN rt "tipo_lectura") (gS df "tipo_lectura")),
    ("Sector", pyOr (gN rt "sector") (gS df "sector")),
    ("Total del mes", pyOr (gN rt "total_mes") (g0 tot "total_mes")),
    ("Gran total", pyOr (gN rt "gran_total") (g0 tot "gran_total")),
    ("Saldo anterior", g0 tot "saldo_anterior"),
    ("Saldo a corte", g0 tot "saldo_corte"),
    ("Lectura anterior kWh", g0 ea "lectura_anterior"),
    ("Lectura actual kWh", g0 ea "lectura_actual"),
    ("Consumo kWh", g0 ea "consumo"),
    ("Consumo reactiva kVARh", g0 er "consumo"),
    ("Demanda actual kW", g0 dm "lectura_actual"),
    ("Histórico consumo kWh", g0 rt "historico_consumo_kwh"),
    ("Histórico consumo kW", g0 rt "historico_consumo_kw"),
    ("Reactiva kVARh", g0 rt "reactiva_kvarh"),
    ("Demanda Media F", g0 rt "demanda_media_f"),
    ("Demanda Máxima", pyOr (gN rt "demanda_maxima") (g0 dem "demanda_maxima")),
    ("Deman. Max. Gen.", pyOr (gN rt "deman_max_gen") (g0 dem "demanda_generacion")),
    ("Demanda Max. Punta", pyOr (gN rt "demanda_max_punta") (g0 dem "demanda_punta")),
    ("Demanda Baja F. Punta", pyOr (gN rt "demanda_baja_f_punta") (g0 dem "demanda_fuera_punta")),
    ("Energía Punta", pyOr (gN rt "energia_punta") (g0 fr "energia_punta")),
    ("Energía F. Punta", pyOr (gN rt "energia_f_punta") (g0 fr "energia_fuera_punta")),
    ("Energía Llano", pyOr (gN rt "energia_llano") (g0 fr "energia_llano")),
    ("Cargo Fijo", pyOr (gN rt "cargo_fijo") st.cargoFijo),
    ("Energía", pyOr (gN rt "energia") st.energia),
    ("Interés por Mora", pyOr (gN rt "interes_por_mora") st.interesMora),
    ("Subsidio Ley 15 (Recargo)", pyOr (gN rt "subsidio_ley_15_recargo") st.subsidio),
    ("Compensación por Incumplimiento",
      pyOr (gN rt "compensacion_por_incumplimiento") st.compensacion),
    ("Generación", g0 cargos "generacion"),
    ("Transmisión", g0 cargos "transmision"),
    ("Distribución", g0 cargos "distribucion"),
    ("Var. Combustible", pyOr (gN rt "var_combustible") (g0 cargos "var_combustible")),
    ("Var. Transmisión", pyOr (gN rt "var_transmision") (g0 cargos "var_transmision")),
    ("Var. Generación", pyOr (gN rt "var_generacion") (g0 cargos "var_generacion")),
    ("Generación kWh", g0 od "generacion_kwh"),
    ("Transmisión kWh", g0 od "transmision_kwh"),
    ("Distribución kWh", g0 od "distribucion_kwh"),
    ("Compensaciones", g0 od "compensaciones"),
    ("Ajustes", g0 od "ajustes"),
    ("Descuentos", g0 od "descuentos"),
    ("Detalle Energía (kWh e importe)",
      .str (pyStr ((lookupKV rt "detalle_energia").getD (.list [])))) ]

/-- The fallible part of `_save_to_excel` after the section reads: every `.get`
on a possibly non-dict value and the classification loop may raise.  The order
in which the raising accesses run differs slightly from the Python dict-literal
order, which is unobservable: all raises collapse to the same boolean failure. -/
def buildS (s : ExtractedSections) : Except Unit FlatRecord := do
  let rt ← asDict s.rt
  let cs ← pyIterate s.conceptos
  let st ← classifyList cs
  let df ← asDict s.df
  let tot ← asDict s.tot
  let cli ← asDict s.cli
  let per ← asDict s.per
  let cargos ← asDict s.cargos
  let dem ← asDict s.dem
  let fr ← asDict s.fr
  let lect ← asDict s.lect
  let od ← asDict ((lookupKV rt "otros_detalles_factura").getD (.dict []))
  let ea ← asDict ((lookupKV lect "energia_activa").getD (.dict []))
  let er ← asDict ((lookupKV lect "energia_reactiva").getD (.dict []))
  let dm ← asDict ((lookupKV lect "demanda").getD (.dict []))
  pure (mkRecord rt st df tot cli per cargos dem fr od ea er dm)

/-- Reconciliation and flattening of one `extracted_data` value: the body of
`TableExtractionAgent._save_to_excel` up to the spreadsheet write. -/
def buildRecord : PyVal → Except Unit FlatRecord
  | .dict kvs => buildS (readSections kvs)
  | _ => .error ()

/-- `_save_to_excel`: the catch-all `except` converts any raise into `False`;
`True` means one row was written. -/
def save_to_excel (d : PyVal) : Bool :=
  match buildRecord d with
  | .ok _ => true
  | .error _ => false

/-- `TableExtractionAgent.process_invoice_text`, abstracted over the outcome of
the external LLM call: `Option.none` models `extract_tables_from_text`
returning `None` (unparsable output or a raised error), `some d` a parsed JSON
document.  The second component is the row persisted to the spreadsheet. -/
def process_invoice_text (parseOutcome : Option PyVal) : Bool × Option FlatRecord :=
  match parseOutcome with
  | Option.none => (false, Option.none)
  | some d =>
    match buildRecord d with
    | .ok r => (true, some r)
    | .error _ => (false, Option.none)

/-- The five line-item categories of the classification loop in
`SimpleTableExtractionAgent._save_to_excel` (`agents_system_simple.py`). -/
inductive SCat where
  | fijo | energia | interesMora | subsidio | compensacion
deriving DecidableEq, Repr

/-- Branch keyword tests of the simplified agent (note: no fuel, transmission
or generation branches, and the compensation branch has no `incumplimiento`). -/
def sCatMatches (c : SCat) (n : String) : Bool :=
  match c with
  | .fijo => strContainsSub n "cargo fijo" || strContainsSub n "fijo"
  | .energia => strContainsSub n "energía" || strContainsSub n "energia"
  | .interesMora => strContainsSub n "interés" || strContainsSub n "interes" || strContainsSub n "mora"
  | .subsidio => strContainsSub n "subsidio" || strContainsSub n "ley 15"
  | .compensacion => strContainsSub n "compensación" || strContainsSub n "compensacion"

/-- The `if/elif` chain of `agents_system_simple.py` lines 333-342. -/
def sClassOf (n : String) : Option SCat :=
  if sCatMatches .fijo n then some .fijo
  else if sCatMatches .energia n then some .energia
  else if sCatMatches .interesMora n then some .interesMora
  else if sCatMatches .subsidio n then some .subsidio
  else if sCatMatches .compensacion n then some .compensacion
  else Option.none

/-- The five accumulators of the simplified classification loop. -/
structure SCState where
  cargoFijo : PyVal := .num 0
  energia : PyVal := .num 0
  interesMora : PyVal := .num 0
  subsidio : PyVal := .num 0
  compensacion : PyVal := .num 0
deriving Repr

/-- Initial simplified classification state. -/
def sInitC : SCState := {}

/-- Overwrite the accumulator of the classified category, if any. -/
def sApplyCat (st : SCState) : Option SCat → PyVal → SCState
  | Option.none, _ => st
  | some .fijo, v => { st with cargoFijo := v }
  | some .energia, v => { st with energia := v }
  | some .interesMora, v => { st with interesMora := v }
  | some .subsidio, v => { st with subsidio := v }
  | some .compensacion, v => { st with compensacion := v }

/-- Per-entry work of the simplified loop body. -/
def sEntryCat (e : PyVal) : Except Unit (Option SCat × PyVal) := do
  let nv ← getAttr e "concepto" (.str "")
  let n ← pyLower nv
  let imp ← getAttr e "importe" (.num 0)
  pure (sClassOf n, imp)

/-- One iteration of the simplified classification loop. -/
def sClassifyStep (st : SCState) (e : PyVal) : Except Unit SCState :=
  (sEntryCat e).map (fun p => sApplyCat st p.1 p.2)

/-- The whole simplified classification loop. -/
def sClassifyList (cs : List PyVal) : Except Unit SCState :=
  cs.foldlM sClassifyStep sInitC

/-- The `consolidado_data` dict literal of `agents_system_simple.py` 345-390. -/
def simpleMkRecord (rt : KVs) (st : SCState) (df tot cli per cargos dem fr ea er dm : KVs) :
    FlatRecord :=
  [ ("Número de factura", pyOr (gN rt "numero_factura") (gS df "numero_factura")),
    ("NIS", pyOr (gN rt "nis") (gS cli "nis")),
    ("Mes de la factura", pyOr (gN rt "mes_factura") (gS df "mes_factura")),
    ("Tarifa", pyOr (gN rt "tarifa") (gS per "tarifa")),
    ("Periodo de lectura desde", pyOr (gN rt "periodo_lectura_desde") (gS per "fecha_desde")),
    ("Periodo de lectura hasta", pyOr (gN rt "periodo_lectura_hasta") (gS per "fecha_hasta")),
    ("Tipo de lectura", pyOr (gN rt "tipo_lectura") (gS df "tipo_lectura")),
    ("Tipo de consumo", gS rt "tipo_consumo"),
    ("Total del mes", pyOr (gN rt "total_mes") (g0 tot "total_mes")),
    ("Gran total", pyOr (gN rt "gran_total") (g0 tot "gran_total")),
    ("Saldo anterior", g0 tot "saldo_anterior"),
    ("Saldo a corte", g0 tot "saldo_corte"),
    ("Lectura anterior kWh", g0 ea "lectura_anterior"),
    ("Lectura actual kWh", g0 ea "lectura_actual"),
    ("Consumo kWh", g0 ea "consumo"),
    ("Consumo reactiva kVARh", g0 er "consumo"),
    ("Demanda actual kW", g0 dm "lectura_actual"),
    ("Cargo Fijo", pyOr (gN rt "cargo_fijo") st.cargoFijo),
    ("Energía", pyOr (gN rt "energia") st.energia),
    ("Interés por Mora", pyOr (gN rt "interes_por_mora") st.interesMora),
    ("Subsidio Ley 15 (Recargo)", pyOr (gN rt "subsidio_ley_15_recargo") st.subsidio),
    ("Compensación por Incumplimiento",
      pyOr (gN rt "compensacion_por_incumplimiento") st.compensacion),
    ("Generación", g0 cargos "generacion"),
    ("Transmisión", g0 cargos "transmision"),
    ("Distribución", g0 cargos "distribucion"),
    ("Var. Combustible", pyOr (gN rt "var_combustible") (g0 cargos "var_combustible")),
    ("Var. Transmisión", pyOr (gN rt "var_transmision") (g0 cargos "var_transmision")),
    ("Var. Generación", pyOr (gN rt "var_generacion") (g0 cargos "var_generacion")),
    ("Demanda Máxima", pyOr (gN rt "demanda_maxima") (g0 dem "demanda_maxima")),
    ("Demanda Max. Punta", pyOr (gN rt "demanda_max_punta") (g0 dem "demanda_punta")),
    ("Demanda Fuera Punta", pyOr (gN rt "demanda_baja_f_punta") (g0 dem "demanda_fuera_punta")),
    ("Energía Punta", pyOr (gN rt "energia_punta") (g0 fr "energia_punta")),
    ("Energía F. Punta", pyOr (gN rt "energia_f_punta") (g0 fr "energia_fuera_punta")),
    ("Energía Llano", pyOr (gN rt "energia_llano") (g0 fr "energia_llano")) ]

/-- The fallible part of `SimpleTableExtractionAgent._save_to_excel`.  The
`otros_detalles_factura` read occurs (and can raise) even though its result is
never used in the simplified record. -/
def simpleBuildS (s : ExtractedSections) : Except Unit FlatRecord := do
  let rt ← asDict s.rt
  let cs ← pyIterate s.conceptos
  let st ← sClassifyList cs
  let df ← asDict s.df
  let tot ← asDict s.tot
  let cli ← asDict s.cli
  let per ← asDict s.per
  let cargos ← asDict s.cargos
  let dem ← asDict s.dem
  let fr ← asDict s.fr
  let lect ← asDict s.lect
  let _ ← asDict ((lookupKV rt "otros_detalles_factura").getD (.dict []))
  let ea ← asDict ((lookupKV lect "energia_activa").getD (.dict []))
  let er ← asDict ((lookupKV lect "energia_reactiva").getD (.dict []))
  let dm ← asDict ((lookupKV lect "demanda").getD (.dict []))
  pure (simpleMkRecord rt st df tot cli per cargos dem fr ea er dm)

/-- Reconciliation and flattening of `SimpleTableExtractionAgent._save_to_excel`. -/
def simpleBuildRecord : PyVal → Except Unit FlatRecord
  | .dict kvs => simpleBuildS (readSections kvs)
  | _ => .error ()

/-- Python `text[:500] + '...' if len(text) > 500 else text`. -/
def pyTruncate (text : String) : String :=
  if text.length > 500 then (String.mk (text.toList.take 500)) ++ "..." else text

/-- `SimpleTableExtractionAgent._create_fallback_structure`. -/
def simple_fallback (text : String) : PyVal :=
  .dict
    [ ("informacion_cliente", .dict [("nis", .str "")]),
      ("datos_factura", .dict [("numero_factura", .str ""), ("mes_factura", .str "")]),
      ("totales", .dict [("total_mes", .num 0), ("gran_total", .num 0)]),
      ("resumen_tabular", .dict
        [ ("nis", .str ""), ("numero_factura", .str ""), ("mes_factura", .str ""),
          ("total_mes", .num 0), ("gran_total", .num 0) ]),
      ("texto_original", .str (pyTruncate text)),
      ("error", .str "Fallback structure created due to parsing error") ]

/-- `SimpleTableExtractionAgent.extract_tables_from_text`, abstracted over the
external LLM call: on unparsable output or a raised error it substitutes the
fallback structure instead of `None` (`agents_system_simple.py` 239-248). -/
def simple_extract (parseOutcome : Option PyVal) (text : String) : PyVal :=
  parseOutcome.getD (simple_fallback text)

/-- `SimpleTableExtractionAgent.process_invoice_text`: extraction (with its
fallback), then flattening and the spreadsheet write. -/
def simple_process_invoice_text (parseOutcome : Option PyVal) (text : String) :
    Bool × Option FlatRecord :=
  match simpleBuildRecord (simple_extract parseOutcome text) with
  | .ok r => (true, some r)
  | .error _ => (false, Option.none)

/-- Python `s.strip()` (whitespace at both ends). -/
def pyStrip (s : String) : String :=
  String.mk (((s.toList.dropWhile Char.isWhitespace).reverse.dropWhile Char.isWhitespace).reverse)

/-- One uploaded document, abstracted at the two external-service boundaries:
`ocrText` is the text the OCR wrapper returned and `llmParse` the outcome of
the LLM extraction step (`Option.none` = unparsable output / raised error). -/
structure DocInput where
  name : String
  ocrText : String
  llmParse : Option PyVal

/-- `process_single_pdf` (`app_streamlit.py` 84-129): reject empty or
too-short OCR text before the extraction step, then run extraction and
flattening; `Option.none` models the function returning `None`. -/
def process_single_pdf (doc : DocInput) : Option FlatRecord :=
  if doc.ocrText == "" || (pyStrip doc.ocrText).length < 50 then Option.none
  else
    match doc.llmParse with
    | Option.none => Option.none
    | some d => (buildRecord d).toOption

/-- The per-document entry appended to `st.session_state.batch_results`
(`archivo`, `estado`, `filas_extraidas`); a produced row always has one line. -/
def batchEntry (doc : DocInput) : String × String × Nat :=
  match process_single_pdf doc with
  | some _ => (doc.name, "Exitoso ✅", 1)
  | Option.none => (doc.name, "Error ❌", 0)

/-- The mutable per-batch state of `process_batch_pdfs`. -/
structure BatchState where
  log : List (String × String × Nat)
  successCount : Nat
  errorCount : Nat

/-- Registration of one document's outcome (`app_streamlit.py` 198-215).  The
retry loop re-invokes the same deterministic pipeline, so its outcome equals a
single invocation. -/
def registerDoc (st : BatchState) (doc : DocInput) : BatchState :=
  match process_single_pdf doc with
  | some _ =>
    { log := st.log ++ [(doc.name, "Exitoso ✅", 1)]
      successCount := st.successCount + 1
      errorCount := st.errorCount }
  | Option.none =>
    { log := st.log ++ [(doc.name, "Error ❌", 0)]
      successCount := st.successCount
      errorCount := st.errorCount + 1 }

/-- `process_batch_pdfs`: every document is processed in order; a failing
document only adds a failure entry and the loop continues. -/
def process_batch_pdfs (docs : List DocInput) : BatchState :=
  docs.foldl registerDoc ⟨[], 0, 0⟩

/-- Modelled from the spec: the semantics claim C1 asserts for the
fuel-variation column — `summary.var_combustible` if present and non-empty,
else the amount of the line item classified as fuel-variation by keyword
match, else 0.  Stated for comparison with what the code actually emits. -/
def claimVarCombustible (d : PyVal) : Except Unit PyVal :=
  match d with
  | .dict kvs => do
    let rt ← asDict (sect kvs "resumen_tabular")
    let cs ← pyIterate ((lookupKV kvs "conceptos_facturacion").getD (.list []))
    let st ← classifyList cs
    pure (pyOr (gN rt "var_combustible") st.varCombustible)
  | _ => .error ()

/-- The 46 column labels of the consolidated row, in emission order. -/
def headerLabels : List String :=
  [ "Número de factura", "NIS", "Mes de la factura", "Tarifa",
    "Periodo de lectura desde", "Periodo de lectura hasta", "Tipo de lectura",
    "Sector", "Total del mes", "Gran total", "Saldo anterior", "Saldo a corte",
    "Lectura anterior kWh", "Lectura actual kWh", "Consumo kWh",
    "Consumo reactiva kVARh", "Demanda actual kW", "Histórico consumo kWh",
    "Histórico consumo kW", "Reactiva kVARh", "Demanda Media F",
    "Demanda Máxima", "Deman. Max. Gen.", "Demanda Max. Punta",
    "Demanda Baja F. Punta", "Energía Punta", "Energía F. Punta",
    "Energía Llano", "Cargo Fijo", "Energía", "Interés por Mora",
    "Subsidio Ley 15 (Recargo)", "Compensación por Incumplimiento",
    "Generación", "Transmisión", "Distribución", "Var. Combustible",
    "Var. Transmisión", "Var. Generación", "Generación kWh", "Transmisión kWh",
    "Distribución kWh", "Compensaciones", "Ajustes", "Descuentos",
    "Detalle Energía (kWh e importe)" ]

/-- The summary keys that the record consumes through the truthy-`or`
precedence operator (every `resumen_tabular.get(...) or ...` read). -/
def orKeys : List String :=
  [ "numero_factura", "nis", "mes_factura", "tarifa", "periodo_lectura_desde",
    "periodo_lectura_hasta", "tipo_lectura", "sector", "total_mes",
    "gran_total", "demanda_maxima", "deman_max_gen", "demanda_max_punta",
    "demanda_baja_f_punta", "energia_punta", "energia_f_punta", "energia_llano",
    "cargo_fijo", "energia", "interes_por_mora", "subsidio_ley_15_recargo",
    "compensacion_por_incumplimiento", "var_combustible", "var_transmision",
    "var_generacion" ]

/-- The row produced from a fully absent extraction result (`{}`). -/
def emptyDefaultsRecord : FlatRecord :=
  mkRecord [] initC [] [] [] [] [] [] [] [] [] [] []

/-! ### General lemmas about the embedding -/

theorem exceptBindOk {α β : Type} {x : Except Unit α} {f : α → Except Unit β} {b : β}
    (h : x >>= f = .ok b) : ∃ a, x = .ok a ∧ f a = .ok b := by
  cases x with
  | ok a => exact ⟨a, rfl, h⟩
  | error e => simp [Bind.bind, Except.bind] at h

theorem exceptBindCongr {α β : Type} {x : Except Unit α} {f g : α → Except Unit β}
    (h : ∀ a, f a = g a) : x >>= f = x >>= g := by
  cases x <;> simp [Bind.bind, Except.bind, h]

theorem pyOr_of_falsy {a : PyVal} (b : PyVal) (h : pyTruthy a = false) : pyOr a b = b := by
  simp [pyOr, h]

theorem pyOr_of_truthy {a : PyVal} (b : PyVal) (h : pyTruthy a = true) : pyOr a b = a := by
  simp [pyOr, h]

/-- Inversion of a successful run of the fallible flattening body. -/
theorem buildS_ok {s : ExtractedSections} {r : FlatRecord} (h : buildS s = .ok r) :
    ∃ rt cs st df tot cli per cargos dem fr lect od ea er dm,
      asDict s.rt = .ok rt ∧
      pyIterate s.conceptos = .ok cs ∧
      classifyList cs = .ok st ∧
      asDict s.df = .ok df ∧
      asDict s.tot = .ok tot ∧
      asDict s.cli = .ok cli ∧
      asDict s.per = .ok per ∧
      asDict s.cargos = .ok cargos ∧
      asDict s.dem = .ok dem ∧
      asDict s.fr = .ok fr ∧
      asDict s.lect = .ok lect ∧
      asDict ((lookupKV rt "otros_detalles_factura").getD (.dict [])) = .ok od ∧
      asDict ((lookupKV lect "energia_activa").getD (.dict [])) = .ok ea ∧
      asDict ((lookupKV lect "energia_reactiva").getD (.dict [])) = .ok er ∧
      asDict ((lookupKV lect "demanda").getD (.dict [])) = .ok dm ∧
      r = mkRecord rt st df tot cli per cargos dem fr od ea er dm := by
  unfold buildS at h
  obtain ⟨rt, h1, h⟩ := exceptBindOk h
  obtain ⟨cs, h2, h⟩ := exceptBindOk h
  obtain ⟨st, h3, h⟩ := exceptBindOk h
  obtain ⟨df, h4, h⟩ := exceptBindOk h
  obtain ⟨tot, h5, h⟩ := exceptBindOk h
  obtain ⟨cli, h6, h⟩ := exceptBindOk h
  obtain ⟨per, h7, h⟩ := exceptBindOk h
  obtain ⟨cargos, h8, h⟩ := exceptBindOk h
  obtain ⟨dem, h9, h⟩ := exceptBindOk h
  obtain ⟨fr, h10, h⟩ := exceptBindOk h
  obtain ⟨lect, h11, h⟩ := exceptBindOk h
  obtain ⟨od, h12, h⟩ := exceptBindOk h
  obtain ⟨ea, h13, h⟩ := exceptBindOk h
  obtain ⟨er, h14, h⟩ := exceptBindOk h
  obtain ⟨dm, h15, h⟩ := exceptBindOk h
  exact ⟨rt, cs, st, df, tot, cli, per, cargos, dem, fr, lect, od, ea, er, dm,
    h1, h2, h3, h4, h5, h6, h7, h8, h9, h10, h11, h12, h13, h14, h15,
    (Except.ok.inj h).symm⟩

theorem lookup_mk_granTotal (rt : KVs) (st : CState)
    (df tot cli per cargos dem fr od ea er dm : KVs) :
    lookupKV (mkRecord rt st df tot cli per cargos dem fr od ea er dm) "Gran total" =
      some (pyOr (gN rt "gran_total") (g0 tot "gran_total")) := rfl

theorem lookup_mk_totalMes (rt : KVs) (st : CState)
    (df tot cli per cargos dem fr od ea er dm : KVs) :
    lookupKV (mkRecord rt st df tot cli per cargos dem fr od ea er dm) "Total del mes" =
      some (pyOr (gN rt "total_mes") (g0 tot "total_mes")) := rfl

theorem lookup_mk_sector (rt : KVs) (st : CState)
    (df tot cli per cargos dem fr od ea er dm : KVs) :
    lookupKV (mkRecord rt st df tot cli per cargos dem fr od ea er dm) "Sector" =
      some (pyOr (gN rt "sector") (gS df "sector")) := rfl

theorem lookup_mk_varCombustible (rt : KVs) (st : CState)
    (df tot cli per cargos dem fr od ea er dm : KVs) :
    lookupKV (mkRecord rt st df tot cli per cargos dem fr od ea er dm) "Var. Combustible" =
      some (pyOr (gN rt "var_combustible") (g0 cargos "var_combustible")) := rfl

theorem lookup_mk_varTransmision (rt : KVs) (st : CState)
    (df tot cli per cargos dem fr od ea er dm : KVs) :
    lookupKV (mkRecord rt st df tot cli per cargos dem fr od ea er dm) "Var. Transmisión" =
      some (pyOr (gN rt "var_transmision") (g0 cargos "var_transmision")) := rfl

theorem lookup_mk_varGeneracion (rt : KVs) (st : CState)
    (df tot cli per cargos dem fr od ea er dm : KVs) :
    lookupKV (mkRecord rt st df tot cli per cargos dem fr od ea er dm) "Var. Generación" =
      some (pyOr (gN rt "var_generacion") (g0 cargos "var_generacion")) := rfl

theorem mk_labels (rt : KVs) (st : CState)
    (df tot cli per cargos dem fr od ea er dm : KVs) :
    (mkRecord rt st df tot cli per cargos dem fr od ea er dm).map Prod.fst = headerLabels := rfl

theorem okBind {α β : Type} (a : α) (f : α → Except Unit β) :
    (Except.ok a >>= f) = f a := rfl

theorem pyTruthy_none : pyTruthy .none = false := rfl

theorem readSections_rtCons (rtv : PyVal) (kvs : KVs) :
    readSections (("resumen_tabular", rtv) :: kvs) = { readSections kvs with rt := rtv } := by
  simp [readSections, sect, lookupKV]

/-- Two runs of the flattening body that differ only in the summary dict agree
whenever the summary dicts agree at `otros_detalles_factura` and produce the
same record entries. -/
theorem buildS_rt_congr (rt1 rt2 : KVs) (df tot cli per cargos dem fr lect conceptos : PyVal)
    (hod : lookupKV rt1 "otros_detalles_factura" = lookupKV rt2 "otros_detalles_factura")
    (hmk : ∀ st dfk totk clik perk cargosk demk frk odk eak erk dmk,
      mkRecord rt1 st dfk totk clik perk cargosk demk frk odk eak erk dmk =
      mkRecord rt2 st dfk totk clik perk cargosk demk frk odk eak erk dmk) :
    buildS ⟨.dict rt1, df, tot, cli, per, cargos, dem, fr, lect, conceptos⟩ =
    buildS ⟨.dict rt2, df, tot, cli, per, cargos, dem, fr, lect, conceptos⟩ := by
  unfold buildS
  rw [show asDict (.dict rt1) = .ok rt1 from rfl, show asDict (.dict rt2) = .ok rt2 from rfl,
    okBind, okBind]
  apply exceptBindCongr; intro cs
  apply exceptBindCongr; intro st
  apply exceptBindCongr; intro dfk
  apply exceptBindCongr; intro totk
  apply exceptBindCongr; intro clik
  apply exceptBindCongr; intro perk
  apply exceptBindCongr; intro cargosk
  apply exceptBindCongr; intro demk
  apply exceptBindCongr; intro frk
  apply exceptBindCongr; intro lectk
  rw [hod]
  apply exceptBindCongr; intro odk
  apply exceptBindCongr; intro eak
  apply exceptBindCongr; intro erk
  apply exceptBindCongr; intro dmk
  rw [hmk]

/-- A summary key that is only consumed through the truthy-`or` operator can be
dropped from the summary dict when its value is falsy. -/
theorem mkRecord_rt_shadow (rk : String) (hk : rk ∈ orKeys) (v : PyVal)
    (hT : pyTruthy v = false) (rkvs : KVs) (hL : lookupKV rkvs rk = Option.none)
    (st : CState) (df tot cli per cargos dem fr od ea er dm : KVs) :
    mkRecord ((rk, v) :: rkvs) st df tot cli per cargos dem fr od ea er dm =
    mkRecord rkvs st df tot cli per cargos dem fr od ea er dm := by
  fin_cases hk <;>
    simp [mkRecord, gN, gS, g0, lookupKV, pyOr, hT, hL, pyTruthy_none]

theorem applyCat_get_self (st : CState) (c : Cat) (v : PyVal) :
    (applyCat st (some c) v).get c = v := by
  cases c <;> rfl

theorem applyCat_get_ne (st : CState) (oc : Option Cat) (v : PyVal) (c : Cat)
    (h : oc ≠ some c) : (applyCat st oc v).get c = st.get c := by
  cases oc with
  | none => rfl
  | some c' => cases c' <;> cases c <;> simp_all [applyCat, CState.get]

theorem classify_foldlM_append (l1 l2 : List PyVal) (st : CState) :
    (l1 ++ l2).foldlM classifyStep st =
      (l1.foldlM classifyStep st) >>= fun st' => l2.foldlM classifyStep st' := by
  induction l1 generalizing st with
  | nil => simp [List.foldlM]
  | cons e es ih =>
    simp only [List.cons_append, List.foldlM_cons]
    cases hs : classifyStep st e <;> simp [Bind.bind, Except.bind, hs, ih]

/-- Entries whose classification never lands on `c` leave the accumulator of
`c` unchanged across the loop. -/
theorem classify_fold_preserve (c : Cat) :
    ∀ (xs : List PyVal) (st0 st1 : CState),
      (∀ f ∈ xs, ∀ oc imp, entryCat f = .ok (oc, imp) → oc ≠ some c) →
      xs.foldlM classifyStep st0 = .ok st1 → st1.get c = st0.get c := by
  intro xs
  induction xs with
  | nil =>
    intro st0 st1 _ h
    cases h
    rfl
  | cons f fs ih =>
    intro st0 st1 hall h
    rw [List.foldlM_cons] at h
    obtain ⟨st', hstep, hrest⟩ := exceptBindOk h
    have hget : st'.get c = st0.get c := by
      unfold classifyStep at hstep
      cases hec : entryCat f with
      | error e =>
        rw [hec] at hstep
        simp [Except.map] at hstep
      | ok p =>
        rw [hec] at hstep
        simp [Except.map] at hstep
        have hne := hall f (by simp) p.1 p.2 (by rw [hec])
        rw [← hstep]
        exact applyCat_get_ne _ _ _ _ hne
    rw [ih st' st1 (fun g hg => hall g (by simp [hg])) hrest, hget]

theorem batch_log_eq (docs : List DocInput) :
    ∀ st : BatchState, (docs.foldl registerDoc st).log = st.log ++ docs.map batchEntry := by
  induction docs with
  | nil => intro st; simp
  | cons d ds ih =>
    intro st
    rw [List.foldl_cons, ih]
    cases hpd : process_single_pdf d <;> simp [registerDoc, batchEntry, hpd]

/-- The `if/elif` chain agrees with a first-match search over the branch order. -/
theorem classOf_eq_find (n : String) :
    classOf n = catOrder.find? (fun c => catMatches c n) := by
  unfold catOrder
  cases h1 : catMatches Cat.fijo n with
  | true => simp [classOf, h1]
  | false =>
  cases h2 : catMatches Cat.energia n with
  | true => simp [classOf, h1, h2]
  | false =>
  cases h3 : catMatches Cat.combustible n with
  | true => simp [classOf, h1, h2, h3]
  | false =>
  cases h4 : catMatches Cat.transmision n with
  | true => simp [classOf, h1, h2, h3, h4]
  | false =>
  cases h5 : catMatches Cat.generacion n with
  | true => simp [classOf, h1, h2, h3, h4, h5]
  | false =>
  cases h6 : catMatches Cat.interesMora n with
  | true => simp [classOf, h1, h2, h3, h4, h5, h6]
  | false =>
  cases h7 : catMatches Cat.subsidio n with
  | true => simp [classOf, h1, h2, h3, h4, h5, h6, h7]
  | false =>
  cases h8 : catMatches Cat.compensacion n with
  | true => simp [classOf, h1, h2, h3, h4, h5, h6, h7, h8]
  | false => simp [classOf, h1, h2, h3, h4, h5, h6, h7, h8]

theorem pyStr_emptyList : pyStr (.list []) = "[]" := by
  show pyReprQ (.list []) = "[]"
  rw [pyReprQ]
  rfl

theorem pyStr_numZero : pyStr (.num 0) = "0" := by
  show pyReprQ (.num 0) = "0"
  rw [pyReprQ]
  rfl

/-! ### Claim C1 -/

/-- Concrete input for C1: a fuel-variation line item, no summary value and no
`cargos_energia` section. -/
def cexC1 : PyVal :=
  .dict [("conceptos_facturacion", .list
    [.dict [("concepto", .str "Variación por Combustible"), ("importe", .num 5)]])]

/-- C1 counterexample: the claim's asserted semantics gives the classified
line-item amount 5 for `Var. Combustible`, but the code emits 0 — the record
falls back to `cargos_energia.var_combustible`, not to the classified amount. -/
theorem c1_counterexample :
    claimVarCombustible cexC1 = .ok (.num 5) ∧
    (buildRecord cexC1).map (fun r => lookupKV r "Var. Combustible") = .ok (some (.num 0)) ∧
    PyVal.num 5 ≠ PyVal.num 0 := by
  refine ⟨rfl, rfl, ?_⟩
  intro h
  injection h with h'
  exact absurd h' (by norm_num)

/-- C1 amended: for the three variation columns the record value is
`summary.<field> or cargos_energia.<field> or 0`; the keyword-classified
line-item amounts for these three categories are computed but never used. -/
theorem c1_amended :
    ∀ (kvs rkvs ckvs : KVs) (r : FlatRecord),
      buildRecord (.dict kvs) = .ok r →
      sect kvs "resumen_tabular" = .dict rkvs →
      sect kvs "cargos_energia" = .dict ckvs →
      lookupKV r "Var. Combustible" =
        some (pyOr (gN rkvs "var_combustible") (g0 ckvs "var_combustible")) ∧
      lookupKV r "Var. Transmisión" =
        some (pyOr (gN rkvs "var_transmision") (g0 ckvs "var_transmision")) ∧
      lookupKV r "Var. Generación" =
        some (pyOr (gN rkvs "var_generacion") (g0 ckvs "var_generacion")) := by
  intro kvs rkvs ckvs r h hrt hcg
  obtain ⟨rt, cs, st, df, tot, cli, per, cargos, dem, fr, lect, od, ea, er, dm,
    h1, h2, h3, h4, h5, h6, h7, h8, h9, h10, h11, h12, h13, h14, h15, hr⟩ :=
      buildS_ok (h : buildS (readSections kvs) = .ok r)
  simp only [readSections] at h1 h8
  rw [hrt] at h1
  rw [hcg] at h8
  simp only [asDict, Except.ok.injEq] at h1 h8
  subst h1
  subst h8
  rw [hr]
  exact ⟨lookup_mk_varCombustible .., lookup_mk_varTransmision .., lookup_mk_varGeneracion ..⟩

/-- C1 witness: with no summary value, the fuel-variation column comes from the
dedicated `cargos_energia` section. -/
theorem c1_witness :
    lookupKV (mkRecord [] initC [] [] [] [] [("var_combustible", PyVal.num 7)] [] [] [] [] [] [])
      "Var. Combustible" = some (.num 7) :=
  (c1_amended [("cargos_energia", .dict [("var_combustible", .num 7)])]
    [] [("var_combustible", .num 7)] _ rfl rfl rfl).1

/-! ### Claim C2 -/

/-- C2 counterexample: with unparsable LLM output, the simplified agent
persists a fallback placeholder row and reports success. -/
theorem c2_counterexample :
    (simple_process_invoice_text Option.none "x").1 = true ∧
    (simple_process_invoice_text Option.none "x").2.isSome = true :=
  ⟨rfl, rfl⟩

/-- C2 amended: in `agents_system.py` a failed extraction yields `None`,
`process_invoice_text` returns `False` and no row; in
`agents_system_simple.py` the fallback structure is flattened and written as a
normal row (success is reported) for every input text. -/
theorem c2_amended :
    process_invoice_text Option.none = (false, Option.none) ∧
    (∀ t : String, (simple_process_invoice_text Option.none t).1 = true ∧
      (simple_process_invoice_text Option.none t).2.isSome = true) :=
  ⟨rfl, fun _ => ⟨rfl, rfl⟩⟩

/-! ### Claim C3 -/

/-- C3: `Gran total` is `summary.gran_total` whenever that is present and
non-zero, regardless of `totals`; with the summary section absent it is
`totals.gran_total` (default 0), and two-source fields such as
`Total del mes` and `Sector` likewise fall back to their dedicated sections. -/
theorem c3_gran_total_precedence :
    ∀ (kvs : KVs) (r : FlatRecord), buildRecord (.dict kvs) = .ok r →
      (∀ rkvs q, lookupKV kvs "resumen_tabular" = some (.dict rkvs) →
        lookupKV rkvs "gran_total" = some (.num q) → q ≠ 0 →
        lookupKV r "Gran total" = some (.num q)) ∧
      (∀ tkvs, lookupKV kvs "resumen_tabular" = Option.none →
        lookupKV kvs "totales" = some (.dict tkvs) →
        lookupKV r "Gran total" = some ((lookupKV tkvs "gran_total").getD (.num 0)) ∧
        lookupKV r "Total del mes" = some ((lookupKV tkvs "total_mes").getD (.num 0))) ∧
      (∀ dkvs, lookupKV kvs "resumen_tabular" = Option.none →
        lookupKV kvs "datos_factura" = some (.dict dkvs) →
        lookupKV r "Sector" = some ((lookupKV dkvs "sector").getD (.str ""))) := by
  intro kvs r h
  obtain ⟨rt, cs, st, df, tot, cli, per, cargos, dem, fr, lect, od, ea, er, dm,
    h1, h2, h3, h4, h5, h6, h7, h8, h9, h10, h11, h12, h13, h14, h15, hr⟩ :=
      buildS_ok (h : buildS (readSections kvs) = .ok r)
  simp only [readSections] at h1 h4 h5
  refine ⟨?_, ?_, ?_⟩
  · intro rkvs q hs hg hq
    rw [show sect kvs "resumen_tabular" = .dict rkvs by rw [sect, hs]; rfl] at h1
    simp only [asDict, Except.ok.injEq] at h1
    subst h1
    rw [hr, lookup_mk_granTotal]
    rw [show gN rkvs "gran_total" = .num q by rw [gN, hg]; rfl]
    rw [pyOr_of_truthy _ (by simp [pyTruthy, hq])]
  · intro tkvs hs ht
    rw [show sect kvs "resumen_tabular" = .dict [] by rw [sect, hs]; rfl] at h1
    rw [show sect kvs "totales" = .dict tkvs by rw [sect, ht]; rfl] at h5
    simp only [asDict, Except.ok.injEq] at h1 h5
    subst h1
    subst h5
    rw [hr, lookup_mk_granTotal, lookup_mk_totalMes]
    constructor
    · rw [show gN ([] : KVs) "gran_total" = .none from rfl, pyOr_of_falsy _ pyTruthy_none]
      rfl
    · rw [show gN ([] : KVs) "total_mes" = .none from rfl, pyOr_of_falsy _ pyTruthy_none]
      rfl
  · intro dkvs hs hd
    rw [show sect kvs "resumen_tabular" = .dict [] by rw [sect, hs]; rfl] at h1
    rw [show sect kvs "datos_factura" = .dict dkvs by rw [sect, hd]; rfl] at h4
    simp only [asDict, Except.ok.injEq] at h1 h4
    subst h1
    subst h4
    rw [hr, lookup_mk_sector]
    rw [show gN ([] : KVs) "sector" = .none from rfl, pyOr_of_falsy _ pyTruthy_none]
    rfl

/-- C3 witness: a present, non-zero `summary.gran_total` of 9 wins over a
`totals.gran_total` of 4. -/
theorem c3_witness :
    lookupKV
      (mkRecord [("gran_total", PyVal.num 9)] initC [] [("gran_total", PyVal.num 4)]
        [] [] [] [] [] [] [] [] []) "Gran total" = some (.num 9) :=
  (c3_gran_total_precedence
      [("resumen_tabular", .dict [("gran_total", .num 9)]),
       ("totales", .dict [("gran_total", .num 4)])] _ rfl).1
    [("gran_total", .num 9)] 9 rfl rfl (by norm_num)

/-! ### Claim C4 -/

/-- Concrete input for C4: both concept labels contain the energy keyword
`energia`, but the later one also contains `cargo fijo` and is classified as
fixed-charge by the earlier branch. -/
def cexC4 : PyVal :=
  .dict [("conceptos_facturacion", .list
    [ .dict [("concepto", .str "Energía"), ("importe", .num 10)],
      .dict [("concepto", .str "cargo fijo energia"), ("importe", .num 20)] ])]

/-- C4 counterexample: two entries whose labels both match the energy keyword
set; the claim predicts the last matching amount 20 for `Energía`, but the
code keeps 10 because the last entry is captured by the earlier
fixed-charge branch. -/
theorem c4_counterexample :
    catMatches Cat.energia (pyLowerStr "Energía") = true ∧
    catMatches Cat.energia (pyLowerStr "cargo fijo energia") = true ∧
    (buildRecord cexC4).map (fun r => lookupKV r "Energía") = .ok (some (.num 10)) ∧
    PyVal.num 10 ≠ PyVal.num 20 := by
  refine ⟨rfl, rfl, rfl, ?_⟩
  intro h
  injection h with h'
  exact absurd h' (by norm_num)

/-- C4 amended: among the entries the classifier assigns to a category (first
matching branch in the fixed order), the last one in list order provides that
category's amount. -/
theorem c4_amended :
    ∀ (pre post : List PyVal) (e : PyVal) (c : Cat) (imp : PyVal) (st : CState),
      entryCat e = .ok (some c, imp) →
      (∀ f ∈ post, ∀ oc imp2, entryCat f = .ok (oc, imp2) → oc ≠ some c) →
      classifyList (pre ++ e :: post) = .ok st →
      st.get c = imp := by
  intro pre post e c imp st he hpost h
  unfold classifyList at h
  rw [classify_foldlM_append] at h
  obtain ⟨st1, hpre, h⟩ := exceptBindOk h
  rw [List.foldlM_cons] at h
  obtain ⟨st2, hstep, hrest⟩ := exceptBindOk h
  have hst2 : st2 = applyCat st1 (some c) imp := by
    unfold classifyStep at hstep
    rw [he] at hstep
    simp [Except.map] at hstep
    exact hstep.symm
  rw [classify_fold_preserve c post st2 st hpost hrest, hst2, applyCat_get_self]

/-- C4 witness: of two entries classified as energy, the later amount 2 wins. -/
theorem c4_witness : CState.get { initC with energia := PyVal.num 2 } Cat.energia = PyVal.num 2 :=
  c4_amended [.dict [("concepto", .str "energia"), ("importe", .num 1)]] []
    (.dict [("concepto", .str "energia"), ("importe", .num 2)])
    Cat.energia (.num 2) _ rfl (by simp) rfl

/-! ### Claim C5 -/

/-- Concrete inputs for C5: `summary.detalle_energia` present as numeric 0
versus absent. -/
def c5with0 : PyVal := .dict [("resumen_tabular", .dict [("detalle_energia", .num 0)])]

/-- Companion input for C5 with the field absent. -/
def c5absent : PyVal := .dict [("resumen_tabular", .dict [])]

/-- C5 counterexample: a summary field that is present but numeric 0 does not
always reconcile like an absent one — `detalle_energia` is stringified, not
passed through the truthy-`or` operator, so the outputs differ. -/
theorem c5_counterexample : buildRecord c5with0 ≠ buildRecord c5absent := by
  intro h
  have h1 : (buildRecord c5with0).map
      (fun r => lookupKV r "Detalle Energía (kWh e importe)") =
      .ok (some (.str (pyStr (.num 0)))) := rfl
  have h2 : (buildRecord c5absent).map
      (fun r => lookupKV r "Detalle Energía (kWh e importe)") =
      .ok (some (.str (pyStr (.list [])))) := rfl
  rw [h] at h1
  rw [h1, pyStr_numZero, pyStr_emptyList] at h2
  simp at h2

/-- C5 amended: for every summary key consumed through the truthy-`or`
precedence operator, a present-but-falsy value (numeric 0, empty string)
reconciles exactly like an absent key; the remaining summary reads
(`historico_*`, `demanda_media_f`, `reactiva_kvarh`, `detalle_energia`,
`otros_detalles_factura`) bypass the operator and are exempt. -/
theorem c5_amended :
    ∀ (kvs rkvs : KVs) (rk : String) (v : PyVal),
      rk ∈ orKeys → pyTruthy v = false → lookupKV rkvs rk = Option.none →
      buildRecord (.dict (("resumen_tabular", .dict ((rk, v) :: rkvs)) :: kvs)) =
      buildRecord (.dict (("resumen_tabular", .dict rkvs) :: kvs)) := by
  intro kvs rkvs rk v hk hT hL
  show buildS (readSections (("resumen_tabular", .dict ((rk, v) :: rkvs)) :: kvs)) =
       buildS (readSections (("resumen_tabular", .dict rkvs) :: kvs))
  rw [readSections_rtCons, readSections_rtCons]
  have hod : lookupKV ((rk, v) :: rkvs) "otros_detalles_factura" =
      lookupKV rkvs "otros_detalles_factura" := by
    fin_cases hk <;> simp [lookupKV]
  exact buildS_rt_congr ((rk, v) :: rkvs) rkvs _ _ _ _ _ _ _ _ _ hod
    (fun st dfk totk clik perk cargosk demk frk odk eak erk dmk =>
      mkRecord_rt_shadow rk hk v hT rkvs hL st dfk totk clik perk cargosk demk frk odk eak erk dmk)

/-- C5 witness: `summary.gran_total` present as 0 reconciles like an absent
`gran_total`. -/
theorem c5_witness :
    buildRecord (.dict [("resumen_tabular", .dict [("gran_total", PyVal.num 0)])]) =
    buildRecord (.dict [("resumen_tabular", .dict [])]) :=
  c5_amended [] [] "gran_total" (.num 0) (by simp [orKeys]) rfl rfl

/-! ### Claim C6 -/

/-- C6 counterexample: on the fully absent input, the `Detalle Energía` column
is the string `"[]"`, which is neither the numeric default 0 nor the text
default `""`. -/
theorem c6_counterexample :
    (buildRecord (.dict [])).map (fun r => lookupKV r "Detalle Energía (kWh e importe)") =
      .ok (some (.str "[]")) ∧
    PyVal.str "[]" ≠ PyVal.str "" ∧ PyVal.str "[]" ≠ PyVal.num 0 := by
  refine ⟨?_, ?_, ?_⟩
  · have h : (buildRecord (PyVal.dict [])).map
        (fun r => lookupKV r "Detalle Energía (kWh e importe)") =
        .ok (some (.str (pyStr (.list [])))) := rfl
    rw [h, pyStr_emptyList]
  · intro h
    injection h with h'
    exact absurd h' (by decide)
  · intro h
    cases h

/-- C6 amended: every successfully produced record carries exactly the 46
column labels in emission order, and on the fully absent input all values are
the defaults `""`/`0` except `Detalle Energía (kWh e importe)`, which is the
stringified empty list `"[]"`. -/
theorem c6_amended :
    (∀ (d : PyVal) (r : FlatRecord), buildRecord d = .ok r →
      r.map Prod.fst = headerLabels) ∧
    buildRecord (.dict []) = .ok emptyDefaultsRecord := by
  constructor
  · intro d r h
    cases d with
    | dict kvs =>
      obtain ⟨rt, cs, st, df, tot, cli, per, cargos, dem, fr, lect, od, ea, er, dm,
        h1, h2, h3, h4, h5, h6, h7, h8, h9, h10, h11, h12, h13, h14, h15, hr⟩ :=
          buildS_ok (h : buildS (readSections kvs) = .ok r)
      rw [hr]
      exact mk_labels rt st df tot cli per cargos dem fr od ea er dm
    | none => cases h
    | bool b => cases h
    | num q => cases h
    | str s => cases h
    | list xs => cases h
  · rfl

/-- C6 witness: the defaulted record carries the 46 labels in order. -/
theorem c6_witness : emptyDefaultsRecord.map Prod.fst = headerLabels :=
  c6_amended.1 (.dict []) emptyDefaultsRecord rfl

/-! ### Claim C7 -/

/-- The rejection condition of `process_single_pdf`:
`not extracted_text or len(extracted_text.strip()) < 50`. -/
def ocrTooShort (s : String) : Bool := s == "" || (pyStrip s).length < 50

/-- C7: every document gets exactly one batch log entry in order; a document
whose OCR text is empty or under 50 characters after trimming yields no record
and a failure entry, and this happens without consulting the LLM outcome at
all (a conversion failure, not an extraction failure). -/
theorem c7_short_ocr_skipped :
    (∀ docs : List DocInput, (process_batch_pdfs docs).log = docs.map batchEntry) ∧
    (∀ doc : DocInput, ocrTooShort doc.ocrText = true →
      process_single_pdf doc = Option.none ∧
      batchEntry doc = (doc.name, "Error ❌", 0)) ∧
    (∀ (nm t : String) (p1 p2 : Option PyVal),
      ocrTooShort t = true →
      process_single_pdf ⟨nm, t, p1⟩ = process_single_pdf ⟨nm, t, p2⟩) := by
  refine ⟨?_, ?_, ?_⟩
  · intro docs
    have h := batch_log_eq docs ⟨[], 0, 0⟩
    simpa [process_batch_pdfs] using h
  · intro doc h
    have hps : process_single_pdf doc = Option.none := by
      unfold process_single_pdf
      unfold ocrTooShort at h
      simp only [Bool.or_eq_true, beq_iff_eq, decide_eq_true_eq] at h
      rcases h with h | h <;> simp [h]
    exact ⟨hps, by simp [batchEntry, hps]⟩
  · intro nm t p1 p2 h
    unfold process_single_pdf
    unfold ocrTooShort at h
    simp only [Bool.or_eq_true, beq_iff_eq, decide_eq_true_eq] at h
    rcases h with h | h <;> simp [h]

/-- A 40-character OCR result with a perfectly parsable LLM outcome. -/
def shortDoc : DocInput :=
  ⟨"corto.pdf", "0123456789012345678901234567890123456789", some (.dict [])⟩

/-- C7 witness: the 40-character document is rejected and logged as a failure. -/
theorem c7_witness :
    process_single_pdf shortDoc = Option.none ∧
    batchEntry shortDoc = ("corto.pdf", "Error ❌", 0) :=
  c7_short_ocr_skipped.2.1 shortDoc (by decide)

/-! ### Claim C8 -/

/-- C8: whatever value reaches the reconciler/flattener — a non-dict, a dict
with wrongly-typed sections, extra keys — `_save_to_excel` totalises every
modelled raise into the boolean failure result: it either produces a record
(and returns `True`) or returns `False`; sample malformed inputs included. -/
theorem c8_no_exception_escape :
    (∀ d : PyVal, (save_to_excel d = true ∧ ∃ r, buildRecord d = .ok r) ∨
      (save_to_excel d = false ∧ buildRecord d = .error ())) ∧
    save_to_excel (.num 3) = false ∧
    save_to_excel (.dict [("resumen_tabular", .num 1)]) = false ∧
    save_to_excel (.dict [("conceptos_facturacion", .num 2)]) = false ∧
    save_to_excel (.dict [("lecturas_medidor", .dict [("energia_activa", .str "x")])]) = false ∧
    save_to_excel (.dict [("unexpected_extra_key", .bool true)]) = true := by
  refine ⟨?_, rfl, rfl, rfl, rfl, rfl⟩
  intro d
  cases h : buildRecord d with
  | ok r => exact Or.inl ⟨by simp [save_to_excel, h], r, rfl⟩
  | error e => exact Or.inr ⟨by simp [save_to_excel, h], rfl⟩

/-! ### Claim C9 -/

/-- C9: the reconcile-and-flatten mapping is a pure function of the parsed
extraction result — equal inputs give equal outputs, and any two successful
runs on the same input produce the identical record. -/
theorem c9_flatten_deterministic :
    (∀ d1 d2 : PyVal, d1 = d2 → buildRecord d1 = buildRecord d2) ∧
    (∀ (d : PyVal) (r1 r2 : FlatRecord),
      buildRecord d = .ok r1 → buildRecord d = .ok r2 → r1 = r2) := by
  constructor
  · intro d1 d2 h
    rw [h]
  · intro d r1 r2 h1 h2
    rw [h1] at h2
    exact Except.ok.inj h2

/-- C9 witness: two runs on the fully absent input agree. -/
theorem c9_witness : emptyDefaultsRecord = emptyDefaultsRecord :=
  c9_flatten_deterministic.2 (.dict []) emptyDefaultsRecord emptyDefaultsRecord rfl rfl

/-! ### Claim C10 -/

/-- C10: each line item is classified by the first branch of the fixed order
whose keywords match its lower-cased label (the chain equals a first-match
search over `catOrder`), an entry updates exactly the accumulator of its
classified category, an unmatched entry updates nothing, and every other
category's accumulator is untouched. -/
theorem c10_single_category :
    (∀ n : String, classOf n = catOrder.find? (fun c => catMatches c n)) ∧
    (∀ (st : CState) (e : PyVal) (st2 : CState) (oc : Option Cat) (imp : PyVal),
      classifyStep st e = .ok st2 → entryCat e = .ok (oc, imp) →
      st2 = applyCat st oc imp ∧ (oc = Option.none → st2 = st) ∧
      (∀ c : Cat, oc ≠ some c → st2.get c = st.get c)) := by
  constructor
  · exact classOf_eq_find
  · intro st e st2 oc imp hstep hec
    have h2 : st2 = applyCat st oc imp := by
      unfold classifyStep at hstep
      rw [hec] at hstep
      simp [Except.map] at hstep
      exact hstep.symm
    refine ⟨h2, ?_, ?_⟩
    · intro hnone
      rw [h2, hnone]
      rfl
    · intro c hne
      rw [h2]
      exact applyCat_get_ne _ _ _ _ hne

/-- A line item whose label classifies as subsidy. -/
def subsidyItem : PyVal :=
  .dict [("concepto", .str "Subsidio Ley 15 (Recargo)"), ("importe", .num 4)]

/-- C10 witness: classifying the subsidy item leaves the fixed-charge
accumulator untouched. -/
theorem c10_witness :
    CState.get { initC with subsidio := PyVal.num 4 } Cat.fijo = CState.get initC Cat.fijo :=
  (c10_single_category.2 initC subsidyItem { initC with subsidio := .num 4 }
    (some Cat.subsidio) (.num 4) rfl rfl).2.2 Cat.fijo (by simp)
